import Mathlib

/-!
Shallow embedding of the validation core of the Librarian repository
(`src/validation/models.py`, `rules.py`, `engine.py`, `audit.py`,
`drift_detector.py`), with theorems checking the frozen claims about it.

Python dictionaries that carry frontmatter / specification payloads are
modelled as association lists from `String` to `FMValue`; Python truthiness,
`dict.get`, `in`, `str()` and `int()` are modelled explicitly where the code
relies on them.  Wall-clock time (`time.time()`, `datetime.now()`) and the
generated UUIDs are nondeterministic inputs and are passed as explicit
parameters.  Free-form `details` and `suggestion` payloads of violations are
not decision-relevant and are omitted from the `Violation` model.
-/

namespace Librarian

/-- `Severity` enum from `models.py`. -/
inductive Severity where
  | critical
  | high
  | medium
  | low
deriving DecidableEq, Repr

/-- `ValidationStatus` enum from `models.py`. -/
inductive ValidationStatus where
  | approved
  | rejected
  | escalated
  | revision_required
deriving DecidableEq, Repr

/-- A violation as produced by the rules (`models.py`, dataclass `Violation`).
The free-form `details` dict and the `suggestion` string carry no
decision-relevant data and are not modelled. -/
structure Violation where
  rule : String
  severity : Severity
  message : String
deriving DecidableEq, Repr

/-- A frontmatter / specification dictionary value: the code only ever reads
strings and lists of strings out of these dictionaries. -/
inductive FMValue where
  | str (s : String)
  | list (xs : List String)
deriving DecidableEq, Repr

/-- Python truthiness of a frontmatter value: empty strings and empty lists
are falsy. -/
def FMValue.truthy : FMValue → Bool
  | .str s => s ≠ ""
  | .list xs => !xs.isEmpty

/-- A single quote character, used when rebuilding the f-string messages of
the source. -/
def sq : String := String.mk [Char.ofNat 39]

/-- Python `str()` of a frontmatter value (a string is itself; a list of
strings renders as `[ 'a', 'b' ]` the way Python prints it). -/
def FMValue.pyStr : FMValue → String
  | .str s => s
  | .list xs => "[" ++ String.intercalate ", " (xs.map (fun x => sq ++ x ++ sq)) ++ "]"

/-- A Python dict with string keys holding frontmatter-style values. -/
abbrev Dict := List (String × FMValue)

/-- `d.get(k)`: first binding of `k`, `None` when absent. -/
def pyGet (d : Dict) (k : String) : Option FMValue :=
  (d.find? (fun p => p.1 == k)).map (·.2)

/-- Python `k in d` key-membership test. -/
def pyHasKey (d : Dict) (k : String) : Bool :=
  (d.find? (fun p => p.1 == k)).isSome

/-- Truthiness of `d.get(k)` (`None` is falsy). -/
def pyGetTruthy (d : Dict) (k : String) : Bool :=
  match pyGet d k with
  | some v => v.truthy
  | none => false

/-- A specification record stored in `context.current_specs` (a Python dict
such as `{"status": "published", "version": "1.0.0", ...}`). -/
abbrev Spec := Dict

/-- The snapshot `context.current_specs : Dict[str, dict]`. -/
abbrev Specs := List (String × Spec)

/-- `specs.get(k)` over the snapshot. -/
def specsGet (specs : Specs) (k : String) : Option Spec :=
  (specs.find? (fun p => p.1 == k)).map (·.2)

/-- An agent request (`request : Dict[str, Any]`); the fields are the keys the
validation code reads, each optional exactly as `request.get(...)` is. -/
structure Request where
  id : Option String := none
  agent_id : Option String := none
  action : Option String := none
  target_type : Option String := none
  target_id : Option String := none
  /-- `request["content"]["frontmatter"]` (default `{}`). -/
  frontmatter : Dict := []
  /-- `request["content"]["path"]` (default `""`). -/
  path : String := ""
deriving DecidableEq, Repr

/-- `ValidationContext` from `rules.py`.  The injected `graph_query` callable
is only ever read for its truthiness by the rules, so it is modelled as a
Bool recording whether one was provided. -/
structure ValidationContext where
  graph_query : Bool := false
  current_specs : Specs := []
deriving DecidableEq, Repr

/-! ### Version parsing (`rules.py`) -/

/-- Match `\d+\.\d+\.\d+` at the head of a character list, returning the
remainder on success (ASCII digits, as in the versions this code handles). -/
def matchVersionCore (cs : List Char) : Option (List Char) :=
  let (d1, r1) := cs.span (·.isDigit)
  if d1.isEmpty then none else
  match r1 with
  | '.' :: r2 =>
    let (d2, r3) := r2.span (·.isDigit)
    if d2.isEmpty then none else
    match r3 with
    | '.' :: r4 =>
      let (d3, r5) := r4.span (·.isDigit)
      if d3.isEmpty then none else some r5
    | _ => none
  | _ => none

/-- `VersionCompatibilityRule._valid_semantic_version`: Python
`re.match(r'^\d+\.\d+\.\d+$', str(version))`; `$` also matches just before a
single trailing newline. -/
def valid_semantic_version (s : String) : Bool :=
  match matchVersionCore s.data with
  | none => false
  | some r => r = [] || r = ['\n']

/-- A `[\w.]` character of the version regexes (ASCII word characters, as in
the versions this code handles). -/
def isWordDot (c : Char) : Bool :=
  c.isAlpha || c.isDigit || c = '_' || c = '.'

/-- Match an optional `marker[\w.]+` group at the head of the characters,
returning the remainder (the group is skipped when it cannot match, exactly
as the regex engine would backtrack to the empty alternative). -/
def matchOptSuffix (marker : Char) (cs : List Char) : List Char :=
  match cs with
  | [] => []
  | c :: rest =>
    if c = marker then
      let (w, r) := rest.span isWordDot
      if w.isEmpty then cs else r
    else cs

/-- `DocumentStandardsRule._valid_version`: Python
`re.match(r'^\d+\.\d+\.\d+(-[\w.]+)?(\+[\w.]+)?$', str(version))`. -/
def valid_version_doc (s : String) : Bool :=
  match matchVersionCore s.data with
  | none => false
  | some r1 =>
    let r2 := matchOptSuffix '-' r1
    let r3 := matchOptSuffix '+' r2
    r3 = [] || r3 = ['\n']

/-- Numeric value of a run of ASCII digits. -/
def digitsVal (cs : List Char) : Nat :=
  cs.foldl (fun acc c => acc * 10 + (c.toNat - 48)) 0

/-- An ASCII whitespace character as stripped by Python `int()`. -/
def isPySpace (c : Char) : Bool :=
  c = ' ' || c = '\t' || c = '\n' || c = '\r' || c = '\x0b' || c = '\x0c'

/-- Strip leading and trailing whitespace from a character list. -/
def pyStrip (cs : List Char) : List Char :=
  ((cs.dropWhile isPySpace).reverse.dropWhile isPySpace).reverse

/-- Python `int(s)` for the strings this code feeds it (components of a
version string split on `.`): surrounding whitespace stripped, an optional
sign, then one or more ASCII digits; `none` models the `ValueError`. -/
def pyInt? (cs : List Char) : Option Int :=
  let t := pyStrip cs
  let neg : Bool := match t with | '-' :: _ => true | _ => false
  let core : List Char :=
    match t with
    | '-' :: rest => rest
    | '+' :: rest => rest
    | _ => t
  if !core.isEmpty && core.all (·.isDigit) then
    some (if neg then -(digitsVal core : Int) else (digitsVal core : Int))
  else none

/-- Python `s.split('.')` over the characters (an empty string yields one
empty component, exactly as `"".split('.') == ['']`). -/
def splitOnDot (cs : List Char) (acc : List Char) : List (List Char) :=
  match cs with
  | [] => [acc.reverse]
  | '.' :: rest => acc.reverse :: splitOnDot rest []
  | c :: rest => splitOnDot rest (c :: acc)

/-- Collect a list of optional values, failing if any is `none` (the list
comprehension `[int(x) for x in v.split('.')]` raising `ValueError`). -/
def allSome : List (Option Int) → Option (List Int)
  | [] => some []
  | none :: _ => none
  | some a :: rest => (allSome rest).map (a :: ·)

/-- `[int(x) for x in s.split('.')]`. -/
def parseParts (s : String) : Option (List Int) :=
  allSome ((splitOnDot s.data []).map pyInt?)

/-- `VersionCompatibilityRule._versions_compatible`.  A `ValueError` from
`int` or an `IndexError` from a too-short part list is caught and yields
`False`. -/
def versions_compatible (child parent : String) : Bool :=
  match parseParts child, parseParts parent with
  | some cs, some ps =>
    match cs[0]?, ps[0]?, cs[1]?, ps[1]? with
    | some c0, some p0, some c1, some p1 =>
      if c0 ≠ p0 then false
      else if c1 < p1 then false
      else true
    | _, _, _, _ => false
  | _, _ => false

/-- `VersionCompatibilityRule._get_parent_version`. -/
def get_parent_version (parent_id : String) (context : ValidationContext) : Option FMValue :=
  match specsGet context.current_specs parent_id with
  | some spec => pyGet spec "version"
  | none => none

/-- `VersionCompatibilityRule.validate` (`rules.py` lines 125-171).  The
compatibility branch only runs when the request declares a truthy
`implements` AND `context.graph_query` is truthy. -/
def VersionCompatibilityRule.validate (request : Request)
    (context : ValidationContext) : List Violation :=
  let frontmatter := request.frontmatter
  let version? := pyGet frontmatter "version"
  let implements? := pyGet frontmatter "implements"
  if !(match version? with | some v => v.truthy | none => false) then
    [{ rule := "VER-001", severity := .high,
       message := "Version is required for all specifications" }]
  else
    let version := (version?.getD (.str "")).pyStr
    let fmtViolations :=
      if !valid_semantic_version version then
        [{ rule := "VER-001", severity := .critical,
           message := "Invalid semantic version format" : Violation }]
      else []
    -- Non-string `implements` / version values raise inside the rule in
    -- Python (unhashable key / missing `.split`), making the engine drop the
    -- whole rule's output; the raise is captured by
    -- `VersionCompatibilityRule.raises` below, so the fall-through arms here
    -- are only reached on inputs where the rule returns normally.
    let compatViolations :=
      if (match implements? with | some v => v.truthy | none => false)
          && context.graph_query then
        match implements? with
        | some (.str implements) =>
          match get_parent_version implements context with
          | some pv =>
            if pv.truthy && !versions_compatible version pv.pyStr then
              [{ rule := "VER-001", severity := .high,
                 message := "Version incompatible with parent specification" : Violation }]
            else []
          | none => []
        | _ => []
      else []
    fmtViolations ++ compatViolations

/-- Whether `VersionCompatibilityRule.validate` raises an uncaught exception
in Python (discarding every violation appended so far): with a truthy
version, a truthy `implements` and a provided `graph_query`, either
`parent_id in specs` (`_get_parent_version`) hashes a list-valued
`implements` (`TypeError: unhashable type`), or `_versions_compatible`
calls `.split` on a truthy list-valued version — child or resolved parent —
(`AttributeError`, not caught by its `ValueError`/`IndexError` handler). -/
def VersionCompatibilityRule.raises (request : Request)
    (context : ValidationContext) : Bool :=
  let version? := pyGet request.frontmatter "version"
  let implements? := pyGet request.frontmatter "implements"
  (match version? with | some v => v.truthy | none => false)
  && (match implements? with | some v => v.truthy | none => false)
  && context.graph_query
  && (match implements? with
      | some (.list _) => true
      | some (.str s) =>
        (match get_parent_version s context with
         | some pv => pv.truthy
             && ((match version? with | some (.list _) => true | _ => false)
                 || (match pv with | .list _ => true | _ => false))
         | none => false)
      | none => false)

/-! ### DocumentStandardsRule (`rules.py` lines 37-113) -/

/-- `DocumentStandardsRule.REQUIRED_FRONTMATTER`. -/
def REQUIRED_FRONTMATTER : List (String × List String) :=
  [("architecture", ["doc", "subsystem", "id", "version", "status", "owners"]),
   ("design", ["doc", "component", "id", "version", "status", "owners"]),
   ("tasks", ["doc", "sprint", "status", "assignee"]),
   ("requirement", ["doc", "id", "version", "status"])]

/-- Directory prefixes of `DocumentStandardsRule.EXPECTED_PATHS`; the full
pattern for each type is the prefix followed by the regex `.*\.md`. -/
def EXPECTED_PATH_DIRS : List (String × String) :=
  [("architecture", "docs/architecture/"),
   ("design", "docs/design/"),
   ("tasks", "docs/tasks/"),
   ("requirement", "docs/requirements/")]

/-- Whether the regex `.*\.md` matches at the head of the characters: some
newline-free run of characters followed by the literal `.md`. -/
def containsDotMdNoNL : List Char → Bool
  | [] => false
  | '.' :: 'm' :: 'd' :: _ => true
  | c :: rest => c ≠ '\n' && containsDotMdNoNL rest

/-- `path.replace("\\", "/")`. -/
def pyReplaceBackslashes (s : String) : String :=
  String.mk (s.data.map (fun c => if c = '\\' then '/' else c))

/-- `re.match(dir + ".*\\.md", path)`: the path starts with the directory and
the regex `.*\.md` matches the remainder. -/
def matchesDocPath (dir : String) (path : String) : Bool :=
  path.startsWith dir && containsDotMdNoNL ((path.drop dir.length).data)

/-- `DocumentStandardsRule.validate` (`rules.py` lines 60-107). -/
def DocumentStandardsRule.validate (request : Request)
    (_context : ValidationContext) : List Violation :=
  let doc_type := request.target_type
  let frontmatter := request.frontmatter
  let path := request.path
  let missingV :=
    match doc_type with
    | some dt =>
      match REQUIRED_FRONTMATTER.find? (fun p => p.1 == dt) with
      | some pr =>
        let missing := pr.2.filter (fun f => !pyHasKey frontmatter f)
        if !missing.isEmpty then
          [{ rule := "DOC-001", severity := .high,
             message := "Missing required frontmatter fields for " ++ dt }]
        else []
      | none => []
    | none => []
  let versionV :=
    match pyGet frontmatter "version" with
    | some v =>
      if v.truthy && !valid_version_doc v.pyStr then
        [{ rule := "DOC-001", severity := .medium,
           message := "Version must use semantic versioning (x.y.z)" : Violation }]
      else []
    | none => []
  let pathV :=
    match doc_type with
    | some dt =>
      match EXPECTED_PATH_DIRS.find? (fun p => p.1 == dt) with
      | some pr =>
        if path ≠ "" && !matchesDocPath pr.2 (pyReplaceBackslashes path) then
          [{ rule := "DOC-001", severity := .medium,
             message := "Document type " ++ sq ++ dt ++ sq
                        ++ " should be in correct location" }]
        else []
      | none => []
    | none => []
  missingV ++ versionV ++ pathV

/-! ### ArchitectureAlignmentRule (`rules.py` lines 207-296) -/

/-- `ArchitectureAlignmentRule._get_architecture` (`specs.get(arch_id)`).
A non-string key is unhashable and raises `TypeError` in Python; that raise
is captured by `ArchitectureAlignmentRule.raises` and makes the
exception-aware engine (`validate_requestE`) discard the rule's output, so
the `none` returned here is only reached on string keys. -/
def get_architecture (arch_id : FMValue) (context : ValidationContext) : Option Spec :=
  match arch_id with
  | .str s => specsGet context.current_specs s
  | .list _ => none

/-- `ArchitectureAlignmentRule._has_circular_dependency`.  Note the Python
comparison `parent_implements == node_id` where both sides may be `None`:
two missing values compare equal, so a request without an `id` whose truthy
`implements` points at a spec with no `implements` of its own (or at no spec
at all) is flagged as circular.  `specs.get(parent_id, {})` raises
`TypeError` on a list-valued `parent_id` before any comparison; that raise
is captured by `ArchitectureAlignmentRule.raises`, so the empty-spec arm
here is only reached on string keys. -/
def has_circular_dependency (node_id : Option String) (parent_id : FMValue)
    (context : ValidationContext) : Bool :=
  let parent : Spec :=
    match parent_id with
    | .str s => (specsGet context.current_specs s).getD []
    | .list _ => []
  match pyGet parent "implements", node_id with
  | none, none => true
  | some (.str s), some t => s == t
  | _, _ => false

/-- `ArchitectureAlignmentRule.validate` (`rules.py` lines 216-275). -/
def ArchitectureAlignmentRule.validate (request : Request)
    (context : ValidationContext) : List Violation :=
  let frontmatter := request.frontmatter
  let doc_type := request.target_type
  let implements? := pyGet frontmatter "implements"
  let implementsTruthy := match implements? with | some v => v.truthy | none => false
  let designV :=
    if doc_type == some "design" then
      if !implementsTruthy then
        [{ rule := "ARCH-001", severity := .critical,
           message := "Design must reference an approved architecture" }]
      else
        match implements? with
        | some impl =>
          match get_architecture impl context with
          | some arch =>
            if arch.isEmpty then
              [{ rule := "ARCH-001", severity := .critical,
                 message := "Referenced architecture " ++ sq ++ impl.pyStr ++ sq
                            ++ " not found" }]
            else if (match pyGet arch "status" with
                     | some (.str s) => s != "approved"
                     | _ => true) then
              [{ rule := "ARCH-001", severity := .critical,
                 message := "Referenced architecture " ++ sq ++ impl.pyStr ++ sq
                            ++ " is not approved" }]
            else []
          | none =>
            [{ rule := "ARCH-001", severity := .critical,
               message := "Referenced architecture " ++ sq ++ impl.pyStr ++ sq
                          ++ " not found" }]
        | none => []
    else []
  let codeV :=
    if doc_type == some "code" && !implementsTruthy then
      [{ rule := "ARCH-001", severity := .high,
         message := "Code must reference an approved design" : Violation }]
    else []
  let circularV :=
    if implementsTruthy then
      match implements? with
      | some impl =>
        if has_circular_dependency request.id impl context then
          [{ rule := "ARCH-001", severity := .critical,
             message := "Circular dependency detected" : Violation }]
        else []
      | none => []
    else []
  designV ++ codeV ++ circularV

/-- Whether `ArchitectureAlignmentRule.validate` raises an uncaught
exception in Python (discarding every violation appended so far): both
`_get_architecture` (design branch) and `_has_circular_dependency` (any
truthy `implements`) call `specs.get` on the raw frontmatter value, which
raises `TypeError: unhashable type` when it is a truthy list.  The pure
`validate` above is the rule's behaviour when this does not happen; the
exception-aware engine (`validate_requestE`) discards its output when it
does. -/
def ArchitectureAlignmentRule.raises (request : Request)
    (_context : ValidationContext) : Bool :=
  match pyGet request.frontmatter "implements" with
  | some (.list xs) => !xs.isEmpty
  | _ => false

/-! ### RequirementCoverageRule (`rules.py` lines 299-353) -/

/-- Python `str.capitalize()`. -/
def pyCapitalize (s : String) : String :=
  match s.data with
  | [] => ""
  | c :: rest => String.mk (c.toUpper :: rest.map Char.toLower)

/-- Iterating a frontmatter value with `for x in v`: a list yields its
elements, a string yields its characters as one-character strings. -/
def fmIter : FMValue → List String
  | .list xs => xs
  | .str s => s.data.map (fun c => String.mk [c])

/-- `RequirementCoverageRule._get_requirement`. -/
def get_requirement (req_id : String) (context : ValidationContext) : Option Spec :=
  specsGet context.current_specs req_id

/-- `RequirementCoverageRule.validate` (`rules.py` lines 308-347). -/
def RequirementCoverageRule.validate (request : Request)
    (context : ValidationContext) : List Violation :=
  let frontmatter := request.frontmatter
  let satisfies := (pyGet frontmatter "satisfies").getD (.list [])
  let doc_type := request.target_type
  if doc_type == some "design" || doc_type == some "code" then
    if !satisfies.truthy then
      [{ rule := "REQ-001", severity := .medium,
         message := pyCapitalize (doc_type.getD "")
                    ++ " should reference requirements it satisfies" }]
    else
      (fmIter satisfies).flatMap (fun req_id =>
        match get_requirement req_id context with
        | some req =>
          if req.isEmpty then
            [{ rule := "REQ-001", severity := .high,
               message := "Referenced requirement " ++ sq ++ req_id ++ sq
                          ++ " not found" }]
          else if (match pyGet req "status" with
                   | some (.str s) => s != "active"
                   | _ => true) then
            [{ rule := "REQ-001", severity := .medium,
               message := "Referenced requirement " ++ sq ++ req_id ++ sq
                          ++ " is not active" }]
          else []
        | none =>
          [{ rule := "REQ-001", severity := .high,
             message := "Referenced requirement " ++ sq ++ req_id ++ sq
                        ++ " not found" }])
  else []

/-! ### ConstitutionComplianceRule (`rules.py` lines 356-448) -/

/-- `ConstitutionComplianceRule.IMMUTABLE_PROPERTIES`. -/
def IMMUTABLE_PROPERTIES : List String := ["id", "created_at", "creator"]

/-- `ConstitutionComplianceRule.PROTECTED_STATUSES`. -/
def PROTECTED_STATUSES : List String := ["approved", "published"]

/-- `ConstitutionComplianceRule._get_existing_spec` applied to the request's
`target_id` (`if not spec_id: return None`, then `specs.get(spec_id)`). -/
def get_existing_spec (spec_id : Option String) (context : ValidationContext) : Option Spec :=
  match spec_id with
  | some s => if s = "" then none else specsGet context.current_specs s
  | none => none

/-- `ConstitutionComplianceRule._get_existing_spec` applied to a raw
frontmatter `implements` value.  A non-string key is unhashable and raises
`TypeError` in Python; that raise is captured by
`ConstitutionComplianceRule.raises` and makes the exception-aware engine
(`validate_requestE`) discard the rule's whole output, so the `none`
returned in the list arm here is only reached on string keys. -/
def get_existing_spec_fm (spec_id : Option FMValue) (context : ValidationContext) : Option Spec :=
  match spec_id with
  | some (.str s) => if s = "" then none else specsGet context.current_specs s
  | some (.list _) => none
  | none => none

/-- `ConstitutionComplianceRule.validate` (`rules.py` lines 368-440). -/
def ConstitutionComplianceRule.validate (request : Request)
    (context : ValidationContext) : List Violation :=
  let action := request.action
  let target_type := request.target_type
  let frontmatter := request.frontmatter
  let target_id := request.target_id
  let deletionV :=
    if action == some "delete" then
      match target_type with
      | some tt =>
        if tt = "decision" || tt = "audit_event" || tt = "agent_request" then
          [{ rule := "CONST-001", severity := .critical,
             message := "Cannot delete " ++ tt ++ " - audit trail is immutable" }]
        else []
      | none => []
    else []
  let updateV :=
    if action == some "update" then
      match get_existing_spec target_id context with
      | some existing =>
        if !existing.isEmpty then
          let immutV := IMMUTABLE_PROPERTIES.filterMap (fun prop =>
            match pyGet frontmatter prop, pyGet existing prop with
            | some a, some b =>
              if a ≠ b then
                some { rule := "CONST-001", severity := .critical,
                       message := "Cannot modify immutable property "
                                  ++ sq ++ prop ++ sq }
              else none
            | _, _ => none)
          let protectedV :=
            match pyGet existing "status" with
            | some (.str s) =>
              if s ∈ PROTECTED_STATUSES then
                [{ rule := "CONST-001", severity := .critical,
                   message := "Cannot modify " ++ s ++ " specification" : Violation }]
              else []
            | _ => []
          immutV ++ protectedV
        else []
      | none => []
    else []
  let hierarchyV :=
    if action == some "create" || action == some "update" then
      let implements? := pyGet frontmatter "implements"
      let implementsTruthy :=
        match implements? with | some v => v.truthy | none => false
      let archV :=
        if target_type == some "architecture" && implementsTruthy then
          match get_existing_spec_fm implements? context with
          | some parent =>
            if !parent.isEmpty &&
               (match pyGet parent "doc_type" with
                | some (.str d) => d = "design" || d = "code"
                | _ => false) then
              [{ rule := "CONST-001", severity := .critical,
                 message := "Architecture cannot implement lower-level specifications" }]
            else []
          | none => []
        else []
      let designV :=
        if target_type == some "design" && implementsTruthy then
          match get_existing_spec_fm implements? context with
          | some parent =>
            if !parent.isEmpty &&
               (match pyGet parent "doc_type" with
                | some (.str d) => d = "code"
                | _ => false) then
              [{ rule := "CONST-001", severity := .critical,
                 message := "Design cannot implement code" : Violation }]
            else []
          | none => []
        else []
      archV ++ designV
    else []
  deletionV ++ updateV ++ hierarchyV

/-- Whether `ConstitutionComplianceRule.validate` raises an uncaught
exception in Python (discarding every violation appended so far, including
a protected-status critical appended earlier in the function): the
hierarchy checks call `_get_existing_spec` on the raw `implements` value
when the action is create/update and the target type is architecture or
design, and `specs.get` on a truthy list-valued `implements` raises
`TypeError: unhashable type`.  The pure `validate` above is the rule's
behaviour when this does not happen; the exception-aware engine
(`validate_requestE`) discards its output when it does. -/
def ConstitutionComplianceRule.raises (request : Request)
    (_context : ValidationContext) : Bool :=
  (request.action == some "create" || request.action == some "update")
  && (request.target_type == some "architecture" || request.target_type == some "design")
  && (match pyGet request.frontmatter "implements" with
      | some (.list xs) => !xs.isEmpty
      | _ => false)

/-! ### ValidationEngine (`engine.py`)

The engine holds a list of rule objects; each has an `enabled` flag and a
`validate` method.  The five shipped rule classes are identified by
`RuleKind`; `runRule` dispatches to the embedded `validate` functions.
`processing_time_ms`, the prose `reasoning` string and the result timestamp
are wall-clock artefacts and are not modelled. -/

/-- The five shipped rule classes. -/
inductive RuleKind where
  | doc
  | ver
  | arch
  | req
  | const
deriving DecidableEq, Repr

/-- A rule object held by the engine (`ValidationRule.enabled` defaults to
`True` in `rules.py`). -/
structure Rule where
  kind : RuleKind
  enabled : Bool := true
deriving DecidableEq, Repr

/-- Dispatch of `rule.validate(request, context)`. -/
def runRule (r : Rule) (request : Request) (context : ValidationContext) : List Violation :=
  match r.kind with
  | .doc => DocumentStandardsRule.validate request context
  | .ver => VersionCompatibilityRule.validate request context
  | .arch => ArchitectureAlignmentRule.validate request context
  | .req => RequirementCoverageRule.validate request context
  | .const => ConstitutionComplianceRule.validate request context

/-- The rule list built by `ValidationEngine.__init__`. -/
def defaultRules : List Rule :=
  [⟨.doc, true⟩, ⟨.ver, true⟩, ⟨.arch, true⟩, ⟨.req, true⟩, ⟨.const, true⟩]

/-- `ValidationEngine`: the optional `graph_query` callable (modelled by its
truthiness) and the mutable rule list (`add_rule` / `remove_rule` produce
engines with other rule lists). -/
structure ValidationEngine where
  graph_query : Bool := false
  rules : List Rule := defaultRules
deriving DecidableEq, Repr

/-- The rules scheduled by `_run_all_rules` (the `if rule.enabled` filter of
the task-list comprehension, `engine.py` lines 92-96). -/
def scheduledRules (e : ValidationEngine) : List Rule :=
  e.rules.filter (·.enabled)

/-- The `ValidationContext` built by `validate_request`
(`context.get("specs", {}) if context else {}`). -/
def engineContext (e : ValidationEngine) (contextSpecs : Option Specs) : ValidationContext :=
  { graph_query := e.graph_query, current_specs := contextSpecs.getD [] }

/-- The decision-relevant part of `ValidationResult` as built by
`validate_request` (metadata keys `rules_executed`, `request_id`,
`agent_id`). -/
structure ValidationResultM where
  status : ValidationStatus
  violations : List Violation
  rules_executed : Nat
  request_id : Option String
  agent_id : Option String
deriving DecidableEq, Repr

/-- `ValidationEngine._determine_status` (`engine.py` lines 134-163). -/
def determine_status (violations : List Violation) : ValidationStatus :=
  if violations.isEmpty then .approved
  else
    let critical_count := violations.countP (fun v => v.severity == .critical)
    if critical_count > 0 then .escalated
    else
      let high_count := violations.countP (fun v => v.severity == .high)
      if high_count ≥ 3 then .revision_required
      else .revision_required

/-- The collection loop of `_run_all_rules` (`engine.py` lines 102-108): an
outcome that is an exception contributes nothing, all other outcomes are
concatenated in task order. -/
def collectResults (results : List (Except Unit (List Violation))) : List Violation :=
  results.foldl (fun acc r => match r with | .error _ => acc | .ok vs => acc ++ vs) []

/-- The ok-payload of a gather outcome. -/
def exceptOk : Except Unit (List Violation) → Option (List Violation)
  | .ok vs => some vs
  | .error _ => none

/-- The outcome list delivered by `asyncio.gather(*tasks,
return_exceptions=True)`: one entry per scheduled rule, in task order;
`fault i` says whether the i-th scheduled task raised instead of returning
its violations. -/
def ruleOutcomes (e : ValidationEngine) (request : Request) (context : ValidationContext)
    (fault : Nat → Bool) : List (Except Unit (List Violation)) :=
  (scheduledRules e).enum.map
    (fun p => if fault p.1 then .error () else .ok (runRule p.2 request context))

/-- `ValidationEngine._run_all_rules` under the fault model `fault`. -/
def run_all_rules (e : ValidationEngine) (request : Request) (context : ValidationContext)
    (fault : Nat → Bool) : List Violation :=
  collectResults (ruleOutcomes e request context fault)

/-- `ValidationEngine.validate_request` under the fault model `fault`
(`engine.py` lines 37-78). -/
def validate_request_with (e : ValidationEngine) (request : Request)
    (contextSpecs : Option Specs) (fault : Nat → Bool) : ValidationResultM :=
  let val_context := engineContext e contextSpecs
  let violations := run_all_rules e request val_context fault
  { status := determine_status violations
    violations := violations
    rules_executed := e.rules.length
    request_id := request.id
    agent_id := request.agent_id }

/-- `ValidationEngine.validate_request` when no rule raises. -/
def validate_request (e : ValidationEngine) (request : Request)
    (contextSpecs : Option Specs) : ValidationResultM :=
  validate_request_with e request contextSpecs (fun _ => false)

/-- Whether the i-th shipped rule raises an uncaught exception on this
input (the `DocumentStandardsRule` and `RequirementCoverageRule` bodies
cannot raise on inputs of this model). -/
def ruleRaises (r : Rule) (request : Request) (context : ValidationContext) : Bool :=
  match r.kind with
  | .doc => false
  | .ver => VersionCompatibilityRule.raises request context
  | .arch => ArchitectureAlignmentRule.raises request context
  | .req => false
  | .const => ConstitutionComplianceRule.raises request context

/-- The fault assignment realised by the rules' own exceptions: the i-th
scheduled task fails exactly when its rule raises on this input. -/
def intrinsicFault (e : ValidationEngine) (request : Request)
    (context : ValidationContext) : Nat → Bool :=
  fun i =>
    match (scheduledRules e)[i]? with
    | some r => ruleRaises r request context
    | none => false

/-- `ValidationEngine.validate_request` with each rule's own exception
behaviour resolved: a rule whose body raises contributes zero violations
(`asyncio.gather(return_exceptions=True)`), every other scheduled rule
contributes its full output. -/
def validate_requestE (e : ValidationEngine) (request : Request)
    (contextSpecs : Option Specs) : ValidationResultM :=
  validate_request_with e request contextSpecs
    (intrinsicFault e request (engineContext e contextSpecs))

/-! ### DriftDetector (`drift_detector.py`)

Each detection method sends one fixed Cypher query to the injected
`graph_query` callable and maps the returned rows to `DriftViolation`s.  The
callable is modelled as one `Except`-valued response per query (`.error`
models the exception caught by the `try` around `self.graph_query(query)`);
the query text itself is fixed in the source and opaque to the rows-in /
violations-out behaviour modelled here.  `datetime.now()` is passed in as
`now`. -/

/-- `DriftViolation` dataclass from `models.py` (`detected_at` is a wall
clock artefact, not modelled). -/
structure DriftViolation where
  type : String
  severity : Severity
  source : String
  target : Option String := none
  description : String := ""
  time_delta : Option Int := none
deriving DecidableEq, Repr

/-- A row of the design-drift query; `*_modified` is `some t` exactly when
the stored value is a `datetime` (the `isinstance` checks), with `t` its
value in seconds. -/
structure DesignDriftRow where
  design_id : String
  arch_id : String
  design_modified : Option Int := none
  arch_modified : Option Int := none
deriving DecidableEq, Repr

/-- A row of the undocumented-code query (`r.get(...)` keys may be absent). -/
structure UndocumentedCodeRow where
  code_id : Option String := none
  code_path : Option String := none
  created_at : Option Int := none
deriving DecidableEq, Repr

/-- A row of the uncovered-requirements query; `text` is `r.get("text", "")`
with its default already applied. -/
structure UncoveredReqRow where
  req_id : String
  priority : Option String := none
  text : String := ""
  created_at : Option Int := none
deriving DecidableEq, Repr

/-- A row of the version-mismatch query. -/
structure VersionMismatchRow where
  child_id : String
  parent_id : String
  child_version : String
  parent_version : String
deriving DecidableEq, Repr

/-- The injected graph-query capability: the response it gives to each of the
four fixed queries. -/
structure GraphQueryModel where
  designDrift : Except Unit (List DesignDriftRow) := .ok []
  undocumentedCode : Except Unit (List UndocumentedCodeRow) := .ok []
  uncoveredRequirements : Except Unit (List UncoveredReqRow) := .ok []
  versionMismatches : Except Unit (List VersionMismatchRow) := .ok []

/-- `DriftDetector` with its optional `graph_query`. -/
structure DriftDetector where
  graph_query : Option GraphQueryModel := none

/-- `DriftDetector.detect_design_drift` (`drift_detector.py` lines 33-78). -/
def detect_design_drift (d : DriftDetector) : List DriftViolation :=
  match d.graph_query with
  | none => []
  | some gq =>
    match gq.designDrift with
    | .error _ => []
    | .ok results =>
      results.map (fun r =>
        { type := "design_ahead_of_architecture"
          severity := .high
          source := r.design_id
          target := some r.arch_id
          description := "Design " ++ sq ++ r.design_id ++ sq
                         ++ " modified after architecture " ++ sq ++ r.arch_id ++ sq
                         ++ " without approval"
          time_delta :=
            match r.design_modified, r.arch_modified with
            | some dm, some am => some (dm - am)
            | _, _ => none })

/-- `DriftDetector.detect_undocumented_code` (lines 80-118). -/
def detect_undocumented_code (d : DriftDetector) (now : Int) : List DriftViolation :=
  match d.graph_query with
  | none => []
  | some gq =>
    match gq.undocumentedCode with
    | .error _ => []
    | .ok results =>
      results.map (fun r =>
        { type := "undocumented_code"
          severity := .medium
          source := r.code_id.getD "unknown"
          description := "Code at " ++ sq ++ (r.code_path.getD "unknown") ++ sq
                         ++ " has no corresponding design documentation"
          time_delta := r.created_at.map (fun c => now - c) })

/-- `DriftDetector.detect_uncovered_requirements` (lines 120-166). -/
def detect_uncovered_requirements (d : DriftDetector) (now : Int) : List DriftViolation :=
  match d.graph_query with
  | none => []
  | some gq =>
    match gq.uncoveredRequirements with
    | .error _ => []
    | .ok results =>
      results.map (fun r =>
        { type := "uncovered_requirement"
          severity := if r.priority == some "high" then Severity.high else Severity.medium
          source := r.req_id
          description := "Requirement " ++ sq ++ r.req_id ++ sq ++ " not satisfied: "
                         ++ r.text.take 100
                         ++ (if r.text.length > 100 then "..." else "")
          time_delta := r.created_at.map (fun c => now - c) })

/-- `DriftDetector.detect_version_mismatches` (lines 168-205). -/
def detect_version_mismatches (d : DriftDetector) : List DriftViolation :=
  match d.graph_query with
  | none => []
  | some gq =>
    match gq.versionMismatches with
    | .error _ => []
    | .ok results =>
      results.map (fun r =>
        { type := "version_mismatch"
          severity := .high
          source := r.child_id
          target := some r.parent_id
          description := "Version mismatch: " ++ r.child_id ++ " (v" ++ r.child_version
                         ++ ") implements " ++ r.parent_id ++ " (v" ++ r.parent_version ++ ")" })

/-- `DriftDetector.detect_all_drift` (lines 20-31). -/
def detect_all_drift (d : DriftDetector) (now : Int) : List DriftViolation :=
  detect_design_drift d
    ++ detect_undocumented_code d now
    ++ detect_uncovered_requirements d now

/-! ### AuditLogger (`audit.py`)

`uuid.uuid4()` and `datetime.now()` are nondeterministic and are passed in
as `rid` / `now`; timestamps are modelled as `Nat`.  The optional external
`storage` mirror in `_store_record` cannot alter the in-process `records`
list (it only receives a serialized copy), so it is not modelled.  The
`result`/`metadata` payloads of a record are not modelled. -/

/-- `ValidationStatus.value` of the Python enum. -/
def ValidationStatus.value : ValidationStatus → String
  | .approved => "approved"
  | .rejected => "rejected"
  | .escalated => "escalated"
  | .revision_required => "revision_required"

/-- `AuditRecord` dataclass from `audit.py`. -/
structure AuditRecord where
  id : String
  timestamp : Nat
  event_type : String
  request_id : Option String := none
  agent_id : Option String := none
  target_id : Option String := none
  target_type : Option String := none
  decision : Option String := none
deriving DecidableEq, Repr

/-- `AuditLogger` with its in-process `records` list. -/
structure AuditLogger where
  records : List AuditRecord := []
deriving DecidableEq, Repr

/-- `AuditLogger._store_record`: `self.records.append(record)`. -/
def store_record (st : AuditLogger) (record : AuditRecord) : AuditLogger :=
  { st with records := st.records ++ [record] }

/-- The record built by `log_validation` (`audit.py` lines 64-79). -/
def mkValidationRecord (request : Request) (result : ValidationResultM)
    (rid : String) (now : Nat) : AuditRecord :=
  { id := rid
    timestamp := now
    event_type := "validation"
    request_id := request.id
    agent_id := request.agent_id
    target_id := request.target_id
    target_type := request.target_type
    decision := some result.status.value }

/-- `AuditLogger.log_validation`: stores the record, returns its id. -/
def log_validation (st : AuditLogger) (request : Request) (result : ValidationResultM)
    (rid : String) (now : Nat) : AuditLogger × String :=
  let record := mkValidationRecord request result rid now
  (store_record st record, record.id)

/-- The `decision : Dict[str, Any]` argument of `log_decision` (the keys the
code reads; `rationale`/`confidence`/`impact_level` feed only the unmodelled
metadata payload). -/
structure DecisionDict where
  request_id : Option String := none
  agent_id : Option String := none
  target_id : Option String := none
  target_type : Option String := none
  decision_type : Option String := none
deriving DecidableEq, Repr

/-- The record built by `log_decision` (`audit.py` lines 93-107). -/
def mkDecisionRecord (decision : DecisionDict) (rid : String) (now : Nat) : AuditRecord :=
  { id := rid
    timestamp := now
    event_type := "decision"
    request_id := decision.request_id
    agent_id := decision.agent_id
    target_id := decision.target_id
    target_type := decision.target_type
    decision := decision.decision_type }

/-- `AuditLogger.log_decision`. -/
def log_decision (st : AuditLogger) (decision : DecisionDict)
    (rid : String) (now : Nat) : AuditLogger × String :=
  let record := mkDecisionRecord decision rid now
  (store_record st record, record.id)

/-- The record built by `log_drift_detection` (`audit.py` lines 121-129; the
violation list feeds only the unmodelled metadata payload). -/
def mkDriftRecord (_violations : List DriftViolation) (rid : String) (now : Nat) : AuditRecord :=
  { id := rid, timestamp := now, event_type := "drift_detection" }

/-- `AuditLogger.log_drift_detection`. -/
def log_drift_detection (st : AuditLogger) (violations : List DriftViolation)
    (rid : String) (now : Nat) : AuditLogger × String :=
  let record := mkDriftRecord violations rid now
  (store_record st record, record.id)

/-- `AuditLogger.get_record` (read-only lookup). -/
def get_record (st : AuditLogger) (record_id : String) : Option AuditRecord :=
  st.records.find? (fun r => r.id == record_id)

/-- `AuditLogger.get_records_by_request` (read-only filter). -/
def get_records_by_request (st : AuditLogger) (request_id : String) : List AuditRecord :=
  st.records.filter (fun r => r.request_id == some request_id)

/-- `AuditLogger.get_recent_records` (`audit.py` lines 198-217): optional
event-type filter (only when truthy), Python stable sort by timestamp
descending, then `records[:limit]`. -/
def get_recent_records (st : AuditLogger) (limit : Nat)
    (event_type : Option String) : List AuditRecord :=
  let records : List AuditRecord :=
    match event_type with
    | some et =>
      if et ≠ "" then st.records.filter (fun r => r.event_type == et) else st.records
    | none => st.records
  let sorted := records.mergeSort (fun a b : AuditRecord => b.timestamp ≤ a.timestamp)
  sorted.take limit

/-! ## Theorems for the claims -/

/-- C1: `_determine_status` returns `approved` iff the violation list is
empty, `escalated` iff it contains a critical violation, and
`revision_required` for every other non-empty list (in particular for zero
critical and three or more high violations): it equals the three-way
case split on emptiness and presence of a critical violation. -/
theorem C1_status_determination :
    ∀ (violations : List Violation),
      determine_status violations =
        (if violations.isEmpty then .approved
         else if violations.any (fun v => v.severity == .critical) then .escalated
         else .revision_required)
      ∧ (determine_status violations = .approved ↔ violations = [])
      ∧ (determine_status violations = .escalated
          ↔ ∃ v ∈ violations, v.severity = .critical) := by
  intro violations
  have hcount : (0 < violations.countP (fun v => v.severity == .critical))
      ↔ (violations.any (fun v => v.severity == .critical) = true) := by
    rw [List.countP_pos, List.any_eq_true]
  constructor
  · unfold determine_status
    by_cases he : violations.isEmpty
    · simp [he]
    · by_cases hc : violations.any (fun v => v.severity == .critical) = true
      · simp [he, hcount.mpr hc, hc]
      · have : ¬ (0 < violations.countP (fun v => v.severity == .critical)) := by
          intro h
          exact hc (hcount.mp h)
        simp [he, this, hc]
  · constructor
    · unfold determine_status
      by_cases he : violations.isEmpty
      · simp [he, List.isEmpty_iff.mp he]
      · have hne : violations ≠ [] := by simpa [List.isEmpty_iff] using he
        by_cases hc : 0 < violations.countP (fun v => v.severity == .critical)
        · simp [he, hc, hne]
        · simp [he, hc, hne]
    · unfold determine_status
      by_cases he : violations.isEmpty
      · have hnil : violations = [] := List.isEmpty_iff.mp he
        subst hnil
        simp
      · by_cases hc : 0 < violations.countP (fun v => v.severity == .critical)
        · have hex : ∃ v ∈ violations, v.severity = Severity.critical := by
            obtain ⟨v, hv, hp⟩ := List.countP_pos.mp hc
            exact ⟨v, hv, by simpa using hp⟩
          simp [he, hc, hex]
        · have hnone : ¬ ∃ v ∈ violations, v.severity = Severity.critical := by
            intro ⟨v, hv, hp⟩
            exact hc (List.countP_pos.mpr ⟨v, hv, by simpa using hp⟩)
          simp [he, hc, hnone, ite_self]

/-- C4 counterexample: on an engine whose Version Compatibility rule is
disabled, the returned `rules_executed` (5, the registered rules) differs
from the number of rules scheduled for evaluation (4, the enabled ones), so
the claim as stated fails. -/
theorem C4_counterexample :
    (validate_request
        { graph_query := false,
          rules := [⟨.doc, true⟩, ⟨.ver, false⟩, ⟨.arch, true⟩, ⟨.req, true⟩, ⟨.const, true⟩] }
        {} none).rules_executed
      ≠ (scheduledRules
          { graph_query := false,
            rules := [⟨.doc, true⟩, ⟨.ver, false⟩, ⟨.arch, true⟩, ⟨.req, true⟩, ⟨.const, true⟩] }).length := by
  decide

/-- C4 amended: `metadata.rules_executed` always equals the total number of
registered rules (`len(self.rules)`), whether or not each was enabled and
scheduled; it coincides with the scheduled count on the default engine,
whose five rules are all enabled. -/
theorem C4_rules_executed :
    ∀ (e : ValidationEngine) (request : Request) (cs : Option Specs) (fault : Nat → Bool)
      (g : Bool) (request2 : Request) (cs2 : Option Specs),
      (validate_request_with e request cs fault).rules_executed = e.rules.length
      ∧ (validate_request { graph_query := g } request2 cs2).rules_executed
          = (scheduledRules { graph_query := g }).length := by
  intro e request cs fault g request2 cs2
  exact ⟨rfl, rfl⟩

/-- C6: `detect_all_drift` is exactly the concatenation of design drift,
undocumented code and uncovered requirements; no violation it returns has
type `version_mismatch`; and with `graph_query = None` every detection
method (version mismatches included) returns the empty list. -/
theorem C6_detect_all_drift :
    ∀ (d : DriftDetector) (now : Int),
      detect_all_drift d now =
        detect_design_drift d ++ detect_undocumented_code d now
          ++ detect_uncovered_requirements d now
      ∧ ((detect_all_drift d now).all (fun v => v.type != "version_mismatch")) = true
      ∧ detect_all_drift { graph_query := none } now = []
      ∧ detect_design_drift { graph_query := none } = []
      ∧ detect_undocumented_code { graph_query := none } now = []
      ∧ detect_uncovered_requirements { graph_query := none } now = []
      ∧ detect_version_mismatches { graph_query := none } = [] := by
  intro d now
  refine ⟨rfl, ?_, rfl, rfl, rfl, rfl, rfl⟩
  rcases d with ⟨_ | gq⟩
  · rfl
  · unfold detect_all_drift
    simp only [List.all_append, Bool.and_eq_true]
    refine ⟨⟨?_, ?_⟩, ?_⟩
    · rcases hq : gq.designDrift with e | results <;>
        simp [detect_design_drift, hq, List.all_map, Function.comp]
    · rcases hq : gq.undocumentedCode with e | results <;>
        simp [detect_undocumented_code, hq, List.all_map, Function.comp]
    · rcases hq : gq.uncoveredRequirements with e | results <;>
        simp [detect_uncovered_requirements, hq, List.all_map, Function.comp]

/-- C7: with no `implements` reference, `VersionCompatibilityRule.validate`
accepts the versions `1.0.0`, `2.1.3` and `0.0.1` with no violations, and
rejects `1.0`, `v1.0.0`, `1.0.0.0` and the empty string with at least one
VER-001 violation. -/
theorem C7_version_regex :
    (VersionCompatibilityRule.validate { frontmatter := [("version", .str "1.0.0")] } {} = [])
    ∧ (VersionCompatibilityRule.validate { frontmatter := [("version", .str "2.1.3")] } {} = [])
    ∧ (VersionCompatibilityRule.validate { frontmatter := [("version", .str "0.0.1")] } {} = [])
    ∧ ((VersionCompatibilityRule.validate { frontmatter := [("version", .str "1.0")] } {}).any
        (fun v => v.rule == "VER-001") = true)
    ∧ ((VersionCompatibilityRule.validate { frontmatter := [("version", .str "v1.0.0")] } {}).any
        (fun v => v.rule == "VER-001") = true)
    ∧ ((VersionCompatibilityRule.validate { frontmatter := [("version", .str "1.0.0.0")] } {}).any
        (fun v => v.rule == "VER-001") = true)
    ∧ ((VersionCompatibilityRule.validate { frontmatter := [("version", .str "")] } {}).any
        (fun v => v.rule == "VER-001") = true) := by
  decide

/-- C9: each audit append operation (`log_validation`, `log_decision`,
`log_drift_detection`) extends the in-process log by exactly one record at
the end, leaving every previously stored record unchanged and in its
original order (the old log is recovered as the prefix of the new one); the
remaining interface operations are read-only queries. -/
theorem C9_append_only :
    ∀ (st : AuditLogger) (request : Request) (result : ValidationResultM)
      (decision : DecisionDict) (dviols : List DriftViolation) (rid : String) (now : Nat),
      (log_validation st request result rid now).1.records
        = st.records ++ [mkValidationRecord request result rid now]
      ∧ (log_validation st request result rid now).1.records.take st.records.length
        = st.records
      ∧ (log_validation st request result rid now).1.records.length
        = st.records.length + 1
      ∧ (log_decision st decision rid now).1.records
        = st.records ++ [mkDecisionRecord decision rid now]
      ∧ (log_decision st decision rid now).1.records.take st.records.length
        = st.records
      ∧ (log_decision st decision rid now).1.records.length
        = st.records.length + 1
      ∧ (log_drift_detection st dviols rid now).1.records
        = st.records ++ [mkDriftRecord dviols rid now]
      ∧ (log_drift_detection st dviols rid now).1.records.take st.records.length
        = st.records
      ∧ (log_drift_detection st dviols rid now).1.records.length
        = st.records.length + 1 := by
  intro st request result decision dviols rid now
  refine ⟨rfl, ?_, ?_, rfl, ?_, ?_, rfl, ?_, ?_⟩ <;>
    simp [log_validation, log_decision, log_drift_detection, store_record,
          List.take_append_of_le_length, List.take_length]

/-- A violation list containing a critical violation is decided `escalated`. -/
theorem determine_status_escalated_of_mem {violations : List Violation} {v : Violation}
    (hv : v ∈ violations) (hcrit : v.severity = .critical) :
    determine_status violations = .escalated := by
  have hne : violations.isEmpty = false := by
    cases violations with
    | nil => simp at hv
    | cons a l => rfl
  have hc : 0 < violations.countP (fun w => w.severity == .critical) :=
    List.countP_pos.mpr ⟨v, hv, by simp [hcrit]⟩
  unfold determine_status
  simp [hne, hc]

/-- C10: an update request whose `target_id` is `None` or names no key of
`context.current_specs` gets no immutable-property and no protected-status
violation from the Constitution Compliance rule: every violation it can
emit for such a request is one of the two hierarchy-direction findings
(the illegal-deletion finding needs action `delete` and cannot occur
either). -/
theorem C10_absent_target_update :
    ∀ (request : Request) (context : ValidationContext),
      request.action = some "update" →
      (request.target_id = none ∨
        ∃ tid, request.target_id = some tid ∧ specsGet context.current_specs tid = none) →
      ((ConstitutionComplianceRule.validate request context).all
        (fun v => v.message == "Architecture cannot implement lower-level specifications"
               || v.message == "Design cannot implement code")) = true := by
  intro request context haction htarget
  have hexist : get_existing_spec request.target_id context = none := by
    rcases htarget with h | ⟨tid, htid, hlook⟩
    · simp [get_existing_spec, h]
    · simp [get_existing_spec, htid, hlook, ite_self]
  simp only [ConstitutionComplianceRule.validate, haction, hexist]
  simp only [List.all_append, Bool.and_eq_true]
  refine ⟨⟨?_, ?_⟩, ?_⟩
  · simp
  · simp
  · split
    · simp only [List.all_append, Bool.and_eq_true]
      constructor
      · split
        · split
          · split <;> simp
          · simp
        · simp
      · split
        · split
          · split <;> simp
          · simp
        · simp
    · simp

/-- C2 counterexample: a request with valid version `2.0.0` implementing `P`,
whose parent version `1.0.0` (different major) IS resolvable via
`current_specs`, gets no violation at all when the context carries no
`graph_query` — the rule's compatibility branch is additionally guarded by
`context.graph_query`, which the claim omits. -/
theorem C2_counterexample :
    valid_semantic_version "2.0.0" = true
    ∧ specsGet [("P", [("version", FMValue.str "1.0.0")])] "P"
        = some [("version", FMValue.str "1.0.0")]
    ∧ VersionCompatibilityRule.validate
        { frontmatter := [("version", FMValue.str "2.0.0"), ("implements", FMValue.str "P")] }
        { graph_query := false,
          current_specs := [("P", [("version", FMValue.str "1.0.0")])] } = [] := by
  decide

/-- C2 amended: additionally assuming `context.graph_query` is provided, a
request with a valid strict semantic version and an `implements` reference
whose parent version resolves via `current_specs` and whose major differs
from the parent's (or whose minor is below the parent's) receives a VER-001
violation of severity high. -/
theorem C2_version_incompatibility :
    ∀ (request : Request) (context : ValidationContext) (v imp pv : String)
      (c0 c1 c2 p0 p1 p2 : Int),
      pyGet request.frontmatter "version" = some (.str v) →
      valid_semantic_version v = true →
      pyGet request.frontmatter "implements" = some (.str imp) →
      imp ≠ "" →
      context.graph_query = true →
      get_parent_version imp context = some (.str pv) →
      pv ≠ "" →
      parseParts v = some [c0, c1, c2] →
      parseParts pv = some [p0, p1, p2] →
      (c0 ≠ p0 ∨ c1 < p1) →
      ((VersionCompatibilityRule.validate request context).any
        (fun w => w.rule == "VER-001" && w.severity == .high)) = true := by
  intro request context v imp pv c0 c1 c2 p0 p1 p2
    hv hvalid himp himpne hgq hpv hpvne hparsev hparsepv hcond
  have hvne : v ≠ "" := by
    intro h
    subst h
    exact absurd hvalid (by decide)
  have hcompat : versions_compatible v pv = false := by
    unfold versions_compatible
    rw [hparsev, hparsepv]
    rcases hcond with h | h
    · simp [h]
    · by_cases h0 : c0 = p0
      · simp [h0, h]
      · simp [h0]
  simp only [VersionCompatibilityRule.validate, hv, himp, hgq, hpv]
  simp [FMValue.truthy, FMValue.pyStr, hvne, himpne, hpvne, hvalid, hcompat]

/-- C2 witness: the concrete incompatibility `2.0.0` implementing a `1.0.0`
parent, with a graph query provided, is flagged VER-001 high. -/
theorem C2_witness :
    ((VersionCompatibilityRule.validate
        { frontmatter := [("version", FMValue.str "2.0.0"), ("implements", FMValue.str "P")] }
        { graph_query := true,
          current_specs := [("P", [("version", FMValue.str "1.0.0")])] }).any
      (fun w => w.rule == "VER-001" && w.severity == .high)) = true :=
  C2_version_incompatibility _ _ "2.0.0" "P" "1.0.0" 2 0 0 1 0 0
    (by decide) (by decide) (by decide) (by decide) rfl (by decide) (by decide)
    (by decide) (by decide) (Or.inl (by decide))

/-- The collection loop keeps exactly the ok outcomes, concatenated in task
order. -/
theorem collectResults_eq (results : List (Except Unit (List Violation))) :
    collectResults results = (results.filterMap exceptOk).flatten := by
  have key : ∀ (l : List (Except Unit (List Violation))) (acc : List Violation),
      l.foldl (fun acc r => match r with | .error _ => acc | .ok vs => acc ++ vs) acc
        = acc ++ (l.filterMap exceptOk).flatten := by
    intro l
    induction l with
    | nil => intro acc; simp
    | cons hd tl ih =>
      intro acc
      cases hd with
      | error e => simp [exceptOk, ih acc]
      | ok vs => simp [exceptOk, ih (acc ++ vs)]
  simpa using key results []

/-- The violations of a faulted validation call are the task-order
concatenation of the outputs of the non-faulting scheduled rules. -/
theorem run_all_rules_eq_flatten (e : ValidationEngine) (request : Request)
    (context : ValidationContext) (fault : Nat → Bool) :
    run_all_rules e request context fault =
      ((scheduledRules e).enum.filterMap
        (fun p => if fault p.1 then none
                  else some (runRule p.2 request context))).flatten := by
  unfold run_all_rules ruleOutcomes
  rw [collectResults_eq, List.filterMap_map]
  have hfun : (exceptOk ∘ fun p : Nat × Rule =>
      if fault p.1 then Except.error () else Except.ok (runRule p.2 request context))
      = (fun p : Nat × Rule =>
          if fault p.1 then none else some (runRule p.2 request context)) := by
    funext p
    by_cases hf : fault p.1 <;> simp [hf, exceptOk, Function.comp]
  rw [hfun]

/-- C3 counterexample: for an update of the published spec `S` whose
frontmatter carries the truthy list-valued `implements = ["X"]` and target
type `design`, the Constitution Compliance rule raises (`specs.get` on an
unhashable key in the hierarchy check), so its critical protected-status
violation is discarded by the engine and the call returns
`revision_required`, not `escalated` — falsifying both conjuncts of the
claim as stated. -/
theorem C3_counterexample :
    specsGet [("S", [("status", FMValue.str "published")])] "S"
      = some [("status", FMValue.str "published")]
    ∧ ConstitutionComplianceRule.raises
        { action := some "update", target_id := some "S", target_type := some "design",
          frontmatter := [("implements", FMValue.list ["X"])] }
        { graph_query := false,
          current_specs := [("S", [("status", FMValue.str "published")])] } = true
    ∧ (validate_requestE { graph_query := false }
        { action := some "update", target_id := some "S", target_type := some "design",
          frontmatter := [("implements", FMValue.list ["X"])] }
        (some [("S", [("status", FMValue.str "published")])])).status
      = .revision_required := by
  decide

/-- C3 amended: an update request whose target resolves (via
`_get_existing_spec` over `context.current_specs`) to a spec with status
`published` receives a critical CONST-001 violation from the Constitution
Compliance rule, and the engine (with each rule's own exception behaviour
resolved) returns status `escalated` — provided the Constitution Compliance
rule itself does not raise, i.e. provided the request does not combine a
truthy list-valued `implements` with target type architecture/design. -/
theorem C3_update_published_escalated :
    ∀ (g : Bool) (request : Request) (specs : Specs) (spec : Spec),
      request.action = some "update" →
      get_existing_spec request.target_id { graph_query := g, current_specs := specs }
        = some spec →
      pyGet spec "status" = some (.str "published") →
      ConstitutionComplianceRule.raises request
        { graph_query := g, current_specs := specs } = false →
      ((ConstitutionComplianceRule.validate request
          { graph_query := g, current_specs := specs }).any
        (fun v => v.rule == "CONST-001" && v.severity == .critical)) = true
      ∧ (validate_requestE { graph_query := g } request (some specs)).status = .escalated := by
  intro g request specs spec haction hexist hstatus hraises
  have hspec_ne : spec.isEmpty = false := by
    cases spec with
    | nil => simp [pyGet] at hstatus
    | cons a l => rfl
  have hconst : ((ConstitutionComplianceRule.validate request
      { graph_query := g, current_specs := specs }).any
      (fun v => v.rule == "CONST-001" && v.severity == .critical)) = true := by
    simp [ConstitutionComplianceRule.validate, haction, hexist, hstatus, hspec_ne,
          PROTECTED_STATUSES, List.any_append]
  refine ⟨hconst, ?_⟩
  obtain ⟨v, hvmem, hvp⟩ := List.any_eq_true.mp hconst
  have hvcrit : v.severity = Severity.critical := by
    have := (Bool.and_eq_true _ _).mp hvp
    simpa using this.2
  have hviol : (validate_requestE { graph_query := g } request (some specs)).violations
      = ((scheduledRules { graph_query := g }).enum.filterMap
          (fun p => if intrinsicFault { graph_query := g } request
                        { graph_query := g, current_specs := specs } p.1 then none
                    else some (runRule p.2 request
                        { graph_query := g, current_specs := specs }))).flatten :=
    run_all_rules_eq_flatten _ _ _ _
  have hfault : intrinsicFault { graph_query := g } request
      { graph_query := g, current_specs := specs } 4 = false := hraises
  have hmemEnum : ((4 : Nat), (⟨RuleKind.const, true⟩ : Rule))
      ∈ (scheduledRules { graph_query := g }).enum := by
    show ((4 : Nat), (⟨RuleKind.const, true⟩ : Rule)) ∈ (defaultRules.filter (·.enabled)).enum
    decide
  have hsome : (fun p : Nat × Rule =>
      if intrinsicFault { graph_query := g } request
          { graph_query := g, current_specs := specs } p.1 then none
      else some (runRule p.2 request { graph_query := g, current_specs := specs }))
      ((4 : Nat), (⟨RuleKind.const, true⟩ : Rule))
      = some (ConstitutionComplianceRule.validate request
          { graph_query := g, current_specs := specs }) := by
    simp [hfault, runRule]
  have hlmem : ConstitutionComplianceRule.validate request
      { graph_query := g, current_specs := specs }
      ∈ (scheduledRules { graph_query := g }).enum.filterMap
          (fun p => if intrinsicFault { graph_query := g } request
                        { graph_query := g, current_specs := specs } p.1 then none
                    else some (runRule p.2 request
                        { graph_query := g, current_specs := specs })) :=
    List.mem_filterMap.mpr ⟨_, hmemEnum, hsome⟩
  have hmem : v ∈ (validate_requestE { graph_query := g } request (some specs)).violations := by
    rw [hviol]
    exact List.mem_flatten.mpr ⟨_, hlmem, hvmem⟩
  have hstat : (validate_requestE { graph_query := g } request (some specs)).status
      = determine_status
          ((validate_requestE { graph_query := g } request (some specs)).violations) := rfl
  rw [hstat]
  exact determine_status_escalated_of_mem hmem hvcrit

/-- C3 witness: a concrete non-raising update of a published spec is
escalated by the exception-aware engine. -/
theorem C3_witness :
    ((ConstitutionComplianceRule.validate
        { action := some "update", target_id := some "S" }
        { graph_query := false,
          current_specs := [("S", [("status", FMValue.str "published")])] }).any
      (fun v => v.rule == "CONST-001" && v.severity == .critical)) = true
    ∧ (validate_requestE { graph_query := false }
        { action := some "update", target_id := some "S" }
        (some [("S", [("status", FMValue.str "published")])])).status = .escalated :=
  C3_update_published_escalated false
    { action := some "update", target_id := some "S" }
    [("S", [("status", FMValue.str "published")])]
    [("status", FMValue.str "published")]
    rfl (by decide) (by decide) (by decide)

/-- C5: a validation call's violations are exactly the concatenation of the
outputs of the scheduled rules that did not raise (a raising rule
contributes nothing), and when every scheduled rule raises the call still
completes with status `approved` and an empty violation list. -/
theorem C5_rule_failure_isolation :
    ∀ (e : ValidationEngine) (request : Request) (cs : Option Specs) (fault : Nat → Bool),
      (validate_request_with e request cs fault).violations =
        ((scheduledRules e).enum.filterMap
          (fun p => if fault p.1 then none
                    else some (runRule p.2 request (engineContext e cs)))).flatten
      ∧ (validate_request_with e request cs (fun _ => true)).status = .approved
      ∧ (validate_request_with e request cs (fun _ => true)).violations = [] := by
  intro e request cs fault
  have main : ∀ (f : Nat → Bool),
      (validate_request_with e request cs f).violations =
        ((scheduledRules e).enum.filterMap
          (fun p => if f p.1 then none
                    else some (runRule p.2 request (engineContext e cs)))).flatten := by
    intro f
    show run_all_rules e request (engineContext e cs) f = _
    unfold run_all_rules ruleOutcomes
    rw [collectResults_eq, List.filterMap_map]
    have hfun : (exceptOk ∘ fun p : Nat × Rule =>
        if f p.1 then Except.error () else Except.ok (runRule p.2 request (engineContext e cs)))
        = (fun p : Nat × Rule =>
            if f p.1 then none else some (runRule p.2 request (engineContext e cs))) := by
      funext p
      by_cases hf : f p.1 <;> simp [hf, exceptOk, Function.comp]
    rw [hfun]
  have hempty : (validate_request_with e request cs (fun _ => true)).violations = [] := by
    rw [main (fun _ => true)]
    simp
  have hstat : (validate_request_with e request cs (fun _ => true)).status
      = determine_status ((validate_request_with e request cs (fun _ => true)).violations) := rfl
  refine ⟨main fault, ?_, hempty⟩
  rw [hstat, hempty]
  rfl

/-- C8: `get_recent_records(limit=k)` with no event-type filter returns a
list of length `min k (total records)` sorted by timestamp in descending
order. -/
theorem C8_get_recent_records :
    ∀ (st : AuditLogger) (k : Nat),
      (get_recent_records st k none).length = min k st.records.length
      ∧ (get_recent_records st k none).Pairwise
          (fun a b => b.timestamp ≤ a.timestamp) := by
  intro st k
  constructor
  · show ((st.records.mergeSort
        (fun a b : AuditRecord => b.timestamp ≤ a.timestamp)).take k).length = _
    rw [List.length_take, List.length_mergeSort]
  · have hs : (st.records.mergeSort
        (fun a b : AuditRecord => b.timestamp ≤ a.timestamp)).Pairwise
        (fun a b => (decide (b.timestamp ≤ a.timestamp)) = true) := by
      apply List.sorted_mergeSort
      · intro a b c hab hbc
        simp only [decide_eq_true_eq] at hab hbc ⊢
        exact le_trans hbc hab
      · intro a b
        simp only [Bool.or_eq_true, decide_eq_true_eq]
        exact Nat.le_total b.timestamp a.timestamp
    have htake : ((st.records.mergeSort
        (fun a b : AuditRecord => b.timestamp ≤ a.timestamp)).take k).Pairwise
        (fun a b => (decide (b.timestamp ≤ a.timestamp)) = true) :=
      List.Pairwise.sublist (List.take_sublist k _) hs
    exact htake.imp (fun h => by simpa using h)

/-- C10 witness: a concrete update targeting an id absent from the snapshot
only yields hierarchy-direction findings. -/
theorem C10_witness :
    ((ConstitutionComplianceRule.validate
        { action := some "update", target_id := some "missing",
          target_type := some "design",
          frontmatter := [("implements", FMValue.str "C")] }
        { graph_query := false,
          current_specs := [("C", [("doc_type", FMValue.str "code")])] }).all
      (fun v => v.message == "Architecture cannot implement lower-level specifications"
             || v.message == "Design cannot implement code")) = true :=
  C10_absent_target_update _ _ rfl (Or.inr ⟨"missing", rfl, by decide⟩)

end Librarian
